import Mathlib

/-!
Shallow embedding of the `bunny-cdn-client` library (files `src/utils.ts`,
`src/client.ts`, `src/types.ts`) and proofs about it.

JavaScript string primitives used by the source (`String.prototype.startsWith`,
single-occurrence `String.prototype.replace`, the regexes `/\/$/` and `/^\//`,
`split('/')`) are modelled on `String.data` character lists.  HTTP transport is
modelled by passing the `HttpResponse` a call would observe as an explicit
argument; each operation also has a companion `...Request` definition giving
the outbound request it issues.
-/

namespace BunnyCdn

/-- JS `s.startsWith(p)`. -/
def jsStartsWith (s p : String) : Bool :=
  p.data.isPrefixOf s.data

/-- JS `s.endsWith(p)` (used to model the regex `/\/$/`). -/
def jsEndsWith (s p : String) : Bool :=
  p.data.isSuffixOf s.data

/-- JS `String.prototype.replace` with a *string* pattern replaces only the
first occurrence of the pattern; on a character list. -/
def replaceFirstList (pat repl : List Char) : List Char → List Char
  | [] => if pat.isPrefixOf ([] : List Char) then repl else []
  | c :: cs =>
    if pat.isPrefixOf (c :: cs) then repl ++ (c :: cs).drop pat.length
    else c :: replaceFirstList pat repl cs

/-- JS `s.replace(pat, repl)` for a plain string pattern (first occurrence only). -/
def jsReplaceFirst (s pat repl : String) : String :=
  ⟨replaceFirstList pat.data repl.data s.data⟩

/-- JS `s.replace(/\/$/, '')`: remove one trailing slash when present. -/
def stripTrailingSlash (s : String) : String :=
  if jsEndsWith s "/" then ⟨s.data.dropLast⟩ else s

/-- JS `s.replace(/^\//, '')`: remove one leading slash when present. -/
def stripLeadingSlash (s : String) : String :=
  if jsStartsWith s "/" then ⟨s.data.drop 1⟩ else s

/-- JS `s.split('/')` on character lists: always at least one (possibly empty)
segment, empty segments kept between consecutive separators. -/
def splitSlashList : List Char → List (List Char)
  | [] => [[]]
  | c :: cs =>
    match splitSlashList cs with
    | [] => [[]]
    | h :: t => if c = '/' then [] :: h :: t else (c :: h) :: t

/-- JS `s.split('/')`. -/
def jsSplitSlash (s : String) : List String :=
  (splitSlashList s.data).map (fun l => (⟨l⟩ : String))

/-- JS `parts[parts.length - 1]` on the result of a split (the array is never
empty, so this is its last element; an out-of-range read would be `undefined`,
which the source only ever tests for falsiness, as the empty string is). -/
def lastSegmentOf (parts : List String) : String :=
  parts.getLastD ""

/-- `ensureHTTPS` from `src/utils.ts`. -/
def ensureHTTPS (url : String) : String :=
  if url = "" then url
  else if jsStartsWith url "http://" then jsReplaceFirst url "http://" "https://"
  else if !(jsStartsWith url "https://") && !(jsStartsWith url "http://") then
    "https://" ++ url
  else url

/-- `buildHTTPSUrl` from `src/utils.ts`. -/
def buildHTTPSUrl (baseUrl path : String) : String :=
  let cleanBaseUrl := stripTrailingSlash baseUrl
  let cleanPath := stripLeadingSlash path
  let fullUrl := cleanBaseUrl ++ "/" ++ cleanPath
  ensureHTTPS fullUrl

/-! ## Data model (`src/types.ts`) and JS dynamic values -/

/-- A parsed JSON / dynamic JS value as observed by the `list` response mapper
(`response.json()` yields one; absent object properties read as `undefined`). -/
inductive JsVal where
  | undefined
  | jsNull
  | bool (b : Bool)
  | num (n : Int)
  | str (s : String)
  | arr (elems : List JsVal)
  | obj (fields : List (String × JsVal))
deriving Repr

/-- JS truthiness of a dynamic value (`undefined`, `null`, `false`, `0`, `''`
are falsy; arrays and objects are always truthy). -/
def JsVal.truthy : JsVal → Bool
  | .undefined => false
  | .jsNull => false
  | .bool b => b
  | .num n => n != 0
  | .str s => s != ""
  | .arr _ => true
  | .obj _ => true

/-- JS property read `v.k`: `undefined` on a missing key or a non-object. -/
def JsVal.get (v : JsVal) (k : String) : JsVal :=
  match v with
  | .obj fields =>
    match fields.lookup k with
    | some w => w
    | none => .undefined
  | _ => .undefined

/-- JS `a || b`: `a` when truthy, otherwise `b`. -/
def jsOr (a b : JsVal) : JsVal :=
  if a.truthy then a else b

/-- JS string coercion, used where the source interpolates a dynamic value into
a template literal (faithful on strings, numbers, booleans and null, which is
all the remote API produces). -/
def JsVal.asString : JsVal → String
  | .undefined => "undefined"
  | .jsNull => "null"
  | .bool b => if b then "true" else "false"
  | .num n => toString n
  | .str s => s
  | .arr _ => ""
  | .obj _ => "[object Object]"

/-- JS numeric coercion for the size fields (faithful on the integers the
remote API produces; other shapes are not observed by any caller here). -/
def JsVal.asInt : JsVal → Int
  | .num n => n
  | _ => 0

/-- `BunnyCDNConfig` from `src/types.ts`. -/
structure BunnyCDNConfig where
  storageZone : String
  apiKey : String
  cdnUrl : String
  pullZoneUrl : String
deriving Repr, DecidableEq

/-- `UploadResult` from `src/types.ts` (`none` models an absent optional field). -/
structure UploadResult where
  success : Bool
  url : Option String
  error : Option String
deriving Repr, DecidableEq

/-- `DeleteResult` from `src/types.ts`. -/
structure DeleteResult where
  success : Bool
  error : Option String
deriving Repr, DecidableEq

/-- `FileInfo` from `src/types.ts`.  `lastModified` keeps the raw value the
source would hand to `new Date(...)`; `none` models "current time at the call"
(the impure `new Date()` default). -/
structure FileInfo where
  name : String
  path : String
  size : Int
  lastModified : Option String
  isDirectory : Bool
deriving Repr, DecidableEq

/-- `ListFilesResult` from `src/types.ts`. -/
structure ListFilesResult where
  success : Bool
  files : Option (List FileInfo)
  error : Option String
deriving Repr, DecidableEq

/-- `FileExistsResult` from `src/types.ts`. -/
structure FileExistsResult where
  fileIsThere : Bool
  error : Option String
deriving Repr, DecidableEq

/-- `GetFileInfoResult` from `src/types.ts`. -/
structure GetFileInfoResult where
  success : Bool
  fileInfo : Option FileInfo
  error : Option String
deriving Repr, DecidableEq

/-- `UploadFromUrlResult` from `src/types.ts`. -/
structure UploadFromUrlResult where
  success : Bool
  url : Option String
  error : Option String
deriving Repr, DecidableEq

/-! ## HTTP model

The source performs one `fetch` per operation (two for `uploadFromUrl`).  We
model the transport by passing in the `HttpResponse` the call observes, and
give each operation a companion `...Request` definition describing the request
it sends.  Transport-level exceptions (the `catch` arms of the source) are
outside this model: a response value is always available and `response.json()`
has parsed successfully. -/

/-- An outbound HTTP request as the source builds it. -/
structure HttpRequest where
  url : String
  method : String
  headers : List (String × String)
  body : Option (List Nat)
deriving Repr, DecidableEq

/-- An HTTP response as observed through the `fetch` API: status, status text,
response headers (`headers.get` is modelled by association-list lookup), the
parsed JSON body (for `list`) and the raw body bytes (for `uploadFromUrl`). -/
structure HttpResponse where
  status : Nat
  statusText : String
  headers : List (String × String)
  json : JsVal
  bodyBytes : List Nat
deriving Repr

/-- `response.ok` of the `fetch` API: status in the range 200-299. -/
def HttpResponse.ok (r : HttpResponse) : Bool :=
  200 ≤ r.status && r.status ≤ 299

/-- `response.headers.get(k)`: the header value, or `null` (`none`) if absent. -/
def headerGet (headers : List (String × String)) (k : String) : Option String :=
  headers.lookup k

/-! ## The client (`src/client.ts`) -/

/-- The constructor of `BunnyCDNClient`: throws (`Except.error`) when any
required field is empty (`!config.storageZone || ...` — a JS string is falsy
exactly when empty). -/
def mkBunnyCDNClient (config : BunnyCDNConfig) : Except String BunnyCDNConfig :=
  if config.storageZone = "" || config.apiKey = "" || config.cdnUrl = "" ||
      config.pullZoneUrl = "" then
    Except.error "Missing Bunny CDN configuration. All fields (storageZone, apiKey, cdnUrl, pullZoneUrl) are required."
  else
    Except.ok config

/-- The PUT request `uploadBuffer` issues. -/
def uploadBufferRequest (config : BunnyCDNConfig) (buffer : List Nat)
    (path contentType : String) : HttpRequest :=
  { url := buildHTTPSUrl config.cdnUrl (config.storageZone ++ "/" ++ path)
    method := "PUT"
    headers := [("AccessKey", config.apiKey), ("Content-Type", contentType)]
    body := some buffer }

/-- `uploadBuffer`'s mapping of the response it observes to an `UploadResult`
(the source's default for `contentType` is `'image/jpeg'`; callers here always
pass it explicitly). -/
def uploadBuffer (config : BunnyCDNConfig) (path : String)
    (response : HttpResponse) : UploadResult :=
  if !response.ok then
    { success := false
      url := none
      error := some ("Upload failed: " ++ toString response.status ++ " " ++
        response.statusText) }
  else
    { success := true
      url := some (buildHTTPSUrl config.pullZoneUrl path)
      error := none }

/-- The DELETE request `deleteFile` issues (note: plain template-literal
concatenation plus `ensureHTTPS`, with no slash normalization). -/
def deleteFileRequest (config : BunnyCDNConfig) (path : String) : HttpRequest :=
  { url := ensureHTTPS (config.cdnUrl ++ "/" ++ config.storageZone ++ "/" ++ path)
    method := "DELETE"
    headers := [("AccessKey", config.apiKey)]
    body := none }

/-- `deleteFile`'s mapping of the observed response to a `DeleteResult`. -/
def deleteFile (response : HttpResponse) : DeleteResult :=
  if !response.ok then
    { success := false
      error := some ("Delete failed: " ++ toString response.status ++ " " ++
        response.statusText) }
  else
    { success := true, error := none }

/-- The filename `deleteFileByUrl` extracts: last element of
`publicUrl.split('/')`. -/
def extractedFilename (publicUrl : String) : String :=
  lastSegmentOf (jsSplitSlash publicUrl)

/-- The request `deleteFileByUrl` issues: none when the extracted filename is
falsy (empty), otherwise `deleteFile`'s request for `basePath/filename`. -/
def deleteFileByUrlRequest (config : BunnyCDNConfig)
    (publicUrl basePath : String) : Option HttpRequest :=
  let filename := extractedFilename publicUrl
  if filename = "" then none
  else some (deleteFileRequest config (basePath ++ "/" ++ filename))

/-- `deleteFileByUrl`'s result: an immediate failure when no filename can be
extracted, otherwise `deleteFile`'s result on the observed response. -/
def deleteFileByUrl (publicUrl : String)
    (response : HttpResponse) : DeleteResult :=
  let filename := extractedFilename publicUrl
  if filename = "" then
    { success := false, error := some "Could not extract filename from URL" }
  else
    deleteFile response

/-- One element of the JSON array mapped to a `FileInfo` by `listFiles`
(`file.ObjectName || file.Name || ''` etc.). -/
def mapListedFile (path : String) (file : JsVal) : FileInfo :=
  let rawName := jsOr (file.get "ObjectName") (jsOr (file.get "Name") (.str ""))
  { name := rawName.asString
    path := if path != "" then path ++ "/" ++ rawName.asString else rawName.asString
    size := (jsOr (file.get "Length") (jsOr (file.get "Size") (.num 0))).asInt
    lastModified :=
      if (file.get "LastChanged").truthy then some (file.get "LastChanged").asString
      else none
    isDirectory := (file.get "IsDirectory").truthy }

/-- The GET request `listFiles` issues. -/
def listFilesRequest (config : BunnyCDNConfig) (path : String) : HttpRequest :=
  { url := buildHTTPSUrl config.cdnUrl (config.storageZone ++ "/" ++ path)
    method := "GET"
    headers := [("AccessKey", config.apiKey)]
    body := none }

/-- `listFiles`'s mapping of the observed response to a `ListFilesResult`:
404 yields success with an empty list, other non-2xx yields failure, and a
2xx body that is not a JSON array maps to the empty file list. -/
def listFiles (path : String) (response : HttpResponse) : ListFilesResult :=
  if !response.ok then
    if response.status = 404 then
      { success := true, files := some [], error := none }
    else
      { success := false
        files := none
        error := some ("List files failed: " ++ toString response.status ++ " " ++
          response.statusText) }
  else
    let files :=
      match response.json with
      | .arr elems => elems.map (mapListedFile path)
      | _ => []
    { success := true, files := some files, error := none }

/-- The HEAD request `getFileInfo` issues. -/
def getFileInfoRequest (config : BunnyCDNConfig) (path : String) : HttpRequest :=
  { url := buildHTTPSUrl config.cdnUrl (config.storageZone ++ "/" ++ path)
    method := "HEAD"
    headers := [("AccessKey", config.apiKey)]
    body := none }

/-- Value of a list of decimal digit characters. -/
def digitsValue (l : List Char) : Nat :=
  l.foldl (fun acc c => acc * 10 + (c.toNat - '0'.toNat)) 0

/-- JS `parseInt(s, 10)` restricted to how `getFileInfo` uses it (an honest
`content-length` is a digit string; a string with no leading integer would be
`NaN`, modelled as 0, which no caller of this library distinguishes). -/
def jsParseInt (s : String) : Int :=
  match s.data with
  | '-' :: rest => -(Int.ofNat (digitsValue (rest.takeWhile Char.isDigit)))
  | l => Int.ofNat (digitsValue (l.takeWhile Char.isDigit))

/-- `getFileInfo`'s mapping of the observed response to a `GetFileInfoResult`:
404 yields success with no `FileInfo`; a 2xx builds one from the
`content-length` and `last-modified` headers with `isDirectory := false`. -/
def getFileInfo (path : String) (response : HttpResponse) : GetFileInfoResult :=
  if !response.ok then
    if response.status = 404 then
      { success := true, fileInfo := none, error := none }
    else
      { success := false
        fileInfo := none
        error := some ("Get file info failed: " ++ toString response.status ++ " " ++
          response.statusText) }
  else
    let contentLength := headerGet response.headers "content-length"
    let lastModified := headerGet response.headers "last-modified"
    let fileName := lastSegmentOf (jsSplitSlash path)
    { success := true
      fileInfo := some
        { name := fileName
          path := path
          size :=
            match contentLength with
            | some s => if s != "" then jsParseInt s else 0
            | none => 0
          lastModified :=
            match lastModified with
            | some s => if s != "" then some s else none
            | none => none
          isDirectory := false }
      error := none }

/-- `fileExists`: layered on `getFileInfo`'s result for the same response;
`exists` is true when a non-directory `FileInfo` came back. -/
def fileExists (path : String) (response : HttpResponse) : FileExistsResult :=
  let fileInfo := getFileInfo path response
  if !fileInfo.success then
    { fileIsThere := false, error := fileInfo.error }
  else
    { fileIsThere :=
        match fileInfo.fileInfo with
        | some f => !f.isDirectory
        | none => false
      error := none }

/-- The unauthenticated GET `uploadFromUrl` issues against the source URL. -/
def sourceFetchRequest (sourceUrl : String) : HttpRequest :=
  { url := sourceUrl, method := "GET", headers := [], body := none }

/-- The content type `uploadFromUrl` forwards:
`sourceResponse.headers.get('content-type') || 'application/octet-stream'`. -/
def sourceContentType (sourceResponse : HttpResponse) : String :=
  match headerGet sourceResponse.headers "content-type" with
  | some s => if s != "" then s else "application/octet-stream"
  | none => "application/octet-stream"

/-- The requests `uploadFromUrl` issues: the source GET always; the storage
PUT only when the source fetch came back 2xx. -/
def uploadFromUrlRequests (config : BunnyCDNConfig)
    (sourceUrl destinationPath : String)
    (sourceResponse : HttpResponse) : List HttpRequest :=
  if !sourceResponse.ok then
    [sourceFetchRequest sourceUrl]
  else
    [sourceFetchRequest sourceUrl,
      uploadBufferRequest config sourceResponse.bodyBytes destinationPath
        (sourceContentType sourceResponse)]

/-- `uploadFromUrl`'s result: failure when the source fetch is non-2xx,
otherwise the result of the delegated `uploadBuffer` (same fields; TS returns
the `UploadResult` as an `UploadFromUrlResult` structurally). -/
def uploadFromUrl (config : BunnyCDNConfig) (destinationPath : String)
    (sourceResponse uploadResponse : HttpResponse) : UploadFromUrlResult :=
  if !sourceResponse.ok then
    { success := false
      url := none
      error := some ("Failed to fetch source file: " ++
        toString sourceResponse.status ++ " " ++ sourceResponse.statusText) }
  else
    let r := uploadBuffer config destinationPath uploadResponse
    { success := r.success, url := r.url, error := r.error }

/-- Whether a dynamic value is an array (`Array.isArray`). -/
def JsVal.isArr : JsVal → Bool
  | .arr _ => true
  | _ => false

/-! ## Concrete configurations and responses used by witnesses -/

/-- A configuration the constructor accepts whose `cdnUrl` carries a trailing
slash. -/
def slashedConfig : BunnyCDNConfig :=
  { storageZone := "zone"
    apiKey := "key"
    cdnUrl := "https://storage.bunnycdn.com/"
    pullZoneUrl := "https://cdn.example.com" }

/-- A configuration with clean slash hygiene. -/
def cleanConfig : BunnyCDNConfig :=
  { storageZone := "zone"
    apiKey := "key"
    cdnUrl := "https://storage.bunnycdn.com"
    pullZoneUrl := "https://cdn.example.com" }

def resp404 : HttpResponse :=
  { status := 404, statusText := "Not Found", headers := [], json := .jsNull
    bodyBytes := [] }

def resp200 : HttpResponse :=
  { status := 200, statusText := "OK"
    headers := [("content-type", "image/png"), ("content-length", "3")]
    json := .jsNull, bodyBytes := [1, 2, 3] }

def resp500 : HttpResponse :=
  { status := 500, statusText := "Internal Server Error", headers := []
    json := .jsNull, bodyBytes := [] }

/-- A 2xx response whose JSON body is an object, not an array. -/
def resp200obj : HttpResponse :=
  { status := 200, statusText := "OK", headers := []
    json := .obj [("message", .str "hi")], bodyBytes := [] }

/-! ## Lemmas about the URL builder -/

lemma string_ne_empty_iff {s : String} : s ≠ "" ↔ s.data ≠ [] := by
  rw [ne_eq, String.ext_iff]

lemma isPrefixOf_iff {l₁ l₂ : List Char} : l₁.isPrefixOf l₂ = true ↔ l₁ <+: l₂ :=
  List.isPrefixOf_iff_prefix

lemma replaceFirstList_eq {pat repl l : List Char}
    (h : pat.isPrefixOf l = true) :
    replaceFirstList pat repl l = repl ++ l.drop pat.length := by
  cases l with
  | nil =>
    have hp : pat = [] := by
      simpa using h
    subst hp
    simp [replaceFirstList]
  | cons c cs => simp [replaceFirstList, h]

lemma jsStartsWith_data_ne_nil {s p : String} (hp : p.data ≠ [])
    (h : jsStartsWith s p = true) : s.data ≠ [] := by
  unfold jsStartsWith at h
  rw [isPrefixOf_iff] at h
  exact fun hs => hp (List.prefix_nil.mp (hs ▸ h))

lemma not_startsWith_http_of_https {s : String}
    (h : jsStartsWith s "https://" = true) :
    jsStartsWith s "http://" = false := by
  unfold jsStartsWith at h ⊢
  rw [isPrefixOf_iff] at h
  rw [Bool.eq_false_iff, ne_eq, isPrefixOf_iff]
  intro h7
  rw [List.prefix_iff_eq_take] at h h7
  have h8 : ("https://".data).take 7 = (s.data.take ("https://".data).length).take 7 := by
    rw [← h]
  rw [List.take_take] at h8
  have h7' : "http://".data = s.data.take (min 7 ("https://".data).length) := by
    have : min 7 ("https://".data).length = ("http://".data).length := by decide
    rw [this]
    exact h7
  rw [← h7'] at h8
  exact absurd h8 (by decide)

lemma jsStartsWith_https_append (s : String) :
    jsStartsWith ("https://" ++ s) "https://" = true := by
  unfold jsStartsWith
  rw [isPrefixOf_iff, String.data_append]
  exact List.prefix_append _ _

lemma jsStartsWith_append_left {s p : String} (h : jsStartsWith s p = true)
    (t : String) : jsStartsWith (s ++ t) p = true := by
  unfold jsStartsWith at h ⊢
  rw [isPrefixOf_iff] at h ⊢
  rw [String.data_append]
  exact h.trans (List.prefix_append _ _)

lemma ensureHTTPS_of_http {url : String} (h : jsStartsWith url "http://" = true) :
    ensureHTTPS url = "https://" ++ String.mk (url.data.drop 7) := by
  have hne : url ≠ "" := by
    rw [string_ne_empty_iff]
    exact jsStartsWith_data_ne_nil (by decide) h
  unfold ensureHTTPS
  rw [if_neg hne, if_pos h]
  unfold jsReplaceFirst
  have h' : ("http://".data).isPrefixOf url.data = true := h
  rw [replaceFirstList_eq h']
  apply String.ext
  rw [String.data_append]
  rfl

lemma ensureHTTPS_of_https {url : String}
    (h : jsStartsWith url "https://" = true) : ensureHTTPS url = url := by
  have hne : url ≠ "" := by
    rw [string_ne_empty_iff]
    exact jsStartsWith_data_ne_nil (by decide) h
  have h7 : jsStartsWith url "http://" = false := not_startsWith_http_of_https h
  unfold ensureHTTPS
  rw [if_neg hne, if_neg (by rw [h7]; exact Bool.false_ne_true)]
  rw [if_neg (by rw [h]; simp)]

lemma ensureHTTPS_of_no_scheme {url : String} (hne : url ≠ "")
    (h8 : jsStartsWith url "https://" = false)
    (h7 : jsStartsWith url "http://" = false) :
    ensureHTTPS url = "https://" ++ url := by
  unfold ensureHTTPS
  rw [if_neg hne, if_neg (by rw [h7]; exact Bool.false_ne_true)]
  rw [if_pos (by rw [h7, h8]; rfl)]

lemma ensureHTTPS_startsWith_https {url : String} (hne : url ≠ "") :
    jsStartsWith (ensureHTTPS url) "https://" = true := by
  cases h7 : jsStartsWith url "http://" with
  | true =>
    rw [ensureHTTPS_of_http h7]
    exact jsStartsWith_https_append _
  | false =>
    cases h8 : jsStartsWith url "https://" with
    | true => rw [ensureHTTPS_of_https h8]; exact h8
    | false =>
      rw [ensureHTTPS_of_no_scheme hne h8 h7]
      exact jsStartsWith_https_append _

lemma ensureHTTPS_idem (url : String) :
    ensureHTTPS (ensureHTTPS url) = ensureHTTPS url := by
  by_cases hne : url = ""
  · subst hne; rfl
  · exact ensureHTTPS_of_https (ensureHTTPS_startsWith_https hne)

/-- C4: `ensureHTTPS` is a prefix-only transformation: empty input unchanged;
an `http://`-prefixed input has exactly its first 7 characters replaced by
`https://` (the rest, later `http://` occurrences included, untouched); a
non-empty input with neither scheme prefix gets `https://` prepended; anything
else (an `https://`-prefixed input) is unchanged; and `ensureHTTPS` is
idempotent on every input. -/
theorem ensureHTTPS_spec (url : String) :
    (url = "" → ensureHTTPS url = url) ∧
    (jsStartsWith url "http://" = true →
      ensureHTTPS url = "https://" ++ String.mk (url.data.drop 7)) ∧
    (url ≠ "" → jsStartsWith url "http://" = false →
      jsStartsWith url "https://" = false →
      ensureHTTPS url = "https://" ++ url) ∧
    (jsStartsWith url "https://" = true → ensureHTTPS url = url) ∧
    ensureHTTPS (ensureHTTPS url) = ensureHTTPS url := by
  refine ⟨?_, ?_, ?_, ?_, ensureHTTPS_idem url⟩
  · intro h; subst h; rfl
  · exact ensureHTTPS_of_http
  · exact fun hne h7 h8 => ensureHTTPS_of_no_scheme hne h8 h7
  · exact ensureHTTPS_of_https

theorem ensureHTTPS_spec_witness :
    ensureHTTPS "" = "" ∧
    ensureHTTPS "http://x/http://y" =
      "https://" ++ String.mk ("http://x/http://y".data.drop 7) ∧
    ensureHTTPS "ftp.example.com" = "https://" ++ "ftp.example.com" ∧
    ensureHTTPS "https://cdn.example.com" = "https://cdn.example.com" :=
  ⟨(ensureHTTPS_spec "").1 rfl,
   (ensureHTTPS_spec "http://x/http://y").2.1 (by decide),
   (ensureHTTPS_spec "ftp.example.com").2.2.1 (by decide) (by decide) (by decide),
   (ensureHTTPS_spec "https://cdn.example.com").2.2.2.1 (by decide)⟩

/-- C5: `buildHTTPSUrl` strips exactly one trailing slash from the base and
one leading slash from the path, joins with a single slash, and applies
`ensureHTTPS`; in particular on `("https://cdn.example.com/", "/a/b.jpg")` it
yields `"https://cdn.example.com/a/b.jpg"`. -/
theorem buildHTTPSUrl_spec (base path : String) :
    buildHTTPSUrl base path =
      ensureHTTPS
        ((if jsEndsWith base "/" = true then String.mk base.data.dropLast else base) ++
          "/" ++
          (if jsStartsWith path "/" = true then String.mk (path.data.drop 1) else path)) ∧
    buildHTTPSUrl "https://cdn.example.com/" "/a/b.jpg" =
      "https://cdn.example.com/a/b.jpg" :=
  ⟨rfl, by decide⟩

lemma join_ne_empty (a b : String) : a ++ "/" ++ b ≠ "" := by
  rw [string_ne_empty_iff, String.data_append, String.data_append]
  exact List.append_ne_nil_of_left_ne_nil
    (List.append_ne_nil_of_right_ne_nil _ (by decide)) _

lemma buildHTTPSUrl_startsWith_https (base path : String) :
    jsStartsWith (buildHTTPSUrl base path) "https://" = true := by
  unfold buildHTTPSUrl
  exact ensureHTTPS_startsWith_https (join_ne_empty _ _)

lemma stripTrailingSlash_of_not_slash {s : String}
    (h : jsEndsWith s "/" = false) : stripTrailingSlash s = s := by
  unfold stripTrailingSlash
  rw [if_neg (by rw [h]; exact Bool.false_ne_true)]

lemma stripTrailingSlash_append_slash {s : String}
    (h : jsEndsWith s "/" = true) : stripTrailingSlash s ++ "/" = s := by
  unfold jsEndsWith at h
  rw [List.isSuffixOf_iff_suffix] at h
  obtain ⟨t, ht⟩ := h
  unfold stripTrailingSlash
  rw [if_pos (by unfold jsEndsWith; rw [List.isSuffixOf_iff_suffix]; exact ⟨t, ht⟩)]
  apply String.ext
  rw [String.data_append, ← ht]
  simp

/-- C1 counterexample: `buildHTTPSUrl` applied to its own output with an empty
second argument appends a trailing slash, so it is not idempotent in the
claimed sense. -/
theorem buildHTTPSUrl_self_empty_counterexample :
    buildHTTPSUrl (buildHTTPSUrl "https://cdn.example.com" "a") "" ≠
      buildHTTPSUrl "https://cdn.example.com" "a" := by decide

/-- C1 amended: applying `buildHTTPSUrl` to its own output with an empty
second argument yields the same string exactly when that output already ends
with a slash; otherwise it yields the output with one trailing slash
appended. -/
theorem buildHTTPSUrl_self_empty (base path : String) :
    (jsEndsWith (buildHTTPSUrl base path) "/" = true →
      buildHTTPSUrl (buildHTTPSUrl base path) "" = buildHTTPSUrl base path) ∧
    (jsEndsWith (buildHTTPSUrl base path) "/" = false →
      buildHTTPSUrl (buildHTTPSUrl base path) "" =
        buildHTTPSUrl base path ++ "/") := by
  have hstart : jsStartsWith (buildHTTPSUrl base path) "https://" = true :=
    buildHTTPSUrl_startsWith_https base path
  constructor
  · intro he
    show ensureHTTPS
        (stripTrailingSlash (buildHTTPSUrl base path) ++ "/" ++ stripLeadingSlash "") =
      buildHTTPSUrl base path
    rw [show stripLeadingSlash "" = "" from rfl, String.append_empty,
      stripTrailingSlash_append_slash he]
    exact ensureHTTPS_of_https hstart
  · intro he
    show ensureHTTPS
        (stripTrailingSlash (buildHTTPSUrl base path) ++ "/" ++ stripLeadingSlash "") =
      buildHTTPSUrl base path ++ "/"
    rw [show stripLeadingSlash "" = "" from rfl, String.append_empty,
      stripTrailingSlash_of_not_slash he]
    exact ensureHTTPS_of_https (jsStartsWith_append_left hstart "/")

theorem buildHTTPSUrl_self_empty_witness :
    buildHTTPSUrl (buildHTTPSUrl "https://cdn.example.com" "a/") "" =
      buildHTTPSUrl "https://cdn.example.com" "a/" ∧
    buildHTTPSUrl (buildHTTPSUrl "https://cdn.example.com" "a") "" =
      buildHTTPSUrl "https://cdn.example.com" "a" ++ "/" :=
  ⟨(buildHTTPSUrl_self_empty "https://cdn.example.com" "a/").1 (by decide),
   (buildHTTPSUrl_self_empty "https://cdn.example.com" "a").2 (by decide)⟩

/-- C2 counterexample: with a trailing slash on `cdnUrl` (a configuration the
constructor accepts), `uploadBuffer` normalizes the join while `deleteFile`
does not, so the two operations target different URL strings for the same
path. -/
theorem delete_upload_url_counterexample :
    mkBunnyCDNClient slashedConfig = Except.ok slashedConfig ∧
    (deleteFileRequest slashedConfig "img.jpg").url ≠
      (uploadBufferRequest slashedConfig [] "img.jpg" "image/jpeg").url :=
  ⟨rfl, by decide⟩

lemma jsStartsWith_slash_append {s : String} (hne : s ≠ "")
    (h : jsStartsWith s "/" = false) (t : String) :
    jsStartsWith (s ++ t) "/" = false := by
  unfold jsStartsWith at h ⊢
  rw [string_ne_empty_iff] at hne
  rw [String.data_append]
  rw [show ("/" : String).data = ['/'] from rfl] at h ⊢
  cases hs : s.data with
  | nil => exact absurd hs hne
  | cons c cs =>
    rw [hs] at h
    simp only [List.isPrefixOf, List.cons_append, Bool.and_true] at h ⊢
    exact h

/-- C2 amended: the DELETE URL of `deleteFile` and the PUT URL of
`uploadBuffer` coincide for every path, provided (beyond the constructor's
own checks) `cdnUrl` does not end with a slash and `storageZone` does not
begin with one; with a trailing slash on `cdnUrl` they differ (see the
counterexample). -/
theorem delete_upload_url_eq (config : BunnyCDNConfig) (buffer : List Nat)
    (path contentType : String)
    (hacc : mkBunnyCDNClient config = Except.ok config)
    (hbase : jsEndsWith config.cdnUrl "/" = false)
    (hzone : jsStartsWith config.storageZone "/" = false) :
    (deleteFileRequest config path).url =
      (uploadBufferRequest config buffer path contentType).url := by
  have hsz : config.storageZone ≠ "" := by
    intro h
    unfold mkBunnyCDNClient at hacc
    rw [h] at hacc
    simp at hacc
  show ensureHTTPS (config.cdnUrl ++ "/" ++ config.storageZone ++ "/" ++ path) =
    buildHTTPSUrl config.cdnUrl (config.storageZone ++ "/" ++ path)
  unfold buildHTTPSUrl
  rw [stripTrailingSlash_of_not_slash hbase]
  rw [show stripLeadingSlash (config.storageZone ++ "/" ++ path) =
      config.storageZone ++ "/" ++ path by
    unfold stripLeadingSlash
    have ha : jsStartsWith (config.storageZone ++ "/") "/" = false :=
      jsStartsWith_slash_append hsz hzone "/"
    have hne : config.storageZone ++ "/" ≠ "" := by
      rw [string_ne_empty_iff, String.data_append]
      exact List.append_ne_nil_of_right_ne_nil _ (by decide)
    rw [if_neg (by
      rw [jsStartsWith_slash_append hne ha path]
      exact Bool.false_ne_true)]]
  congr 1
  apply String.ext
  simp only [String.data_append, List.append_assoc]

theorem delete_upload_url_eq_witness :
    (deleteFileRequest cleanConfig "img.jpg").url =
      (uploadBufferRequest cleanConfig [] "img.jpg" "image/jpeg").url :=
  delete_upload_url_eq cleanConfig [] "img.jpg" "image/jpeg" rfl (by decide)
    (by decide)

/-! ## Lemmas and theorems about the response mapping -/

lemma ok_false_of_status_404 {r : HttpResponse} (h : r.status = 404) :
    r.ok = false := by
  unfold HttpResponse.ok
  rw [h]
  decide

lemma status_in_error (pre : String) (n : Nat) (st : String) :
    (toString n).data <:+: (pre ++ toString n ++ " " ++ st).data := by
  rw [String.append_assoc (pre ++ toString n) " " st]
  rw [String.data_append, String.data_append]
  exact List.infix_append _ _ _

/-- C3: on a 404 response `deleteFile` fails while `listFiles` succeeds with
an empty file list; on any other non-2xx status both fail, each with an error
string carrying the status code. -/
theorem delete404_vs_list404_spec (path : String) (r : HttpResponse) :
    (r.status = 404 →
      (deleteFile r).success = false ∧
      listFiles path r = { success := true, files := some [], error := none }) ∧
    (r.ok = false →
      deleteFile r =
        { success := false
          error := some ("Delete failed: " ++ toString r.status ++ " " ++
            r.statusText) } ∧
      (toString r.status).data <:+: (((deleteFile r).error).getD "").data) ∧
    (r.ok = false → r.status ≠ 404 →
      listFiles path r =
        { success := false, files := none
          error := some ("List files failed: " ++ toString r.status ++ " " ++
            r.statusText) } ∧
      (toString r.status).data <:+: (((listFiles path r).error).getD "").data) := by
  refine ⟨?_, ?_, ?_⟩
  · intro h404
    have hok := ok_false_of_status_404 h404
    exact ⟨by simp [deleteFile, hok], by simp [listFiles, hok, h404]⟩
  · intro hok
    refine ⟨by simp [deleteFile, hok], ?_⟩
    simp only [deleteFile, hok, Bool.not_false, if_pos, Option.getD_some]
    exact status_in_error "Delete failed: " r.status r.statusText
  · intro hok h404
    refine ⟨by simp [listFiles, hok, h404], ?_⟩
    simp only [listFiles, hok, h404, Bool.not_false, if_pos, if_neg,
      Option.getD_some]
    exact status_in_error "List files failed: " r.status r.statusText

theorem delete404_vs_list404_witness :
    ((deleteFile resp404).success = false ∧
      listFiles "dir" resp404 =
        { success := true, files := some [], error := none }) ∧
    ((deleteFile resp500).success = false ∧
      ("500" : String).data <:+: (((deleteFile resp500).error).getD "").data) ∧
    ((listFiles "dir" resp500).success = false ∧
      ("500" : String).data <:+: (((listFiles "dir" resp500).error).getD "").data) := by
  refine ⟨(delete404_vs_list404_spec "dir" resp404).1 rfl, ⟨?_, ?_⟩, ⟨?_, ?_⟩⟩
  · rw [((delete404_vs_list404_spec "dir" resp500).2.1 (by decide)).1]
  · exact ((delete404_vs_list404_spec "dir" resp500).2.1 (by decide)).2
  · rw [((delete404_vs_list404_spec "dir" resp500).2.2 (by decide) (by decide)).1]
  · exact ((delete404_vs_list404_spec "dir" resp500).2.2 (by decide) (by decide)).2

/-- C6: `getFileInfo` maps a 404 to success with no `FileInfo`, and
`fileExists` on the same response reports `exists = false` with no error;
in general `exists` is true exactly when `getFileInfo` succeeded with a
non-directory `FileInfo`, and a `getFileInfo` failure propagates its error
string with `exists = false`. -/
theorem getFileInfo_fileExists_spec (path : String) (r : HttpResponse) :
    (r.status = 404 →
      getFileInfo path r = { success := true, fileInfo := none, error := none } ∧
      fileExists path r = { fileIsThere := false, error := none }) ∧
    ((fileExists path r).fileIsThere = true ↔
      (getFileInfo path r).success = true ∧
      ∃ f, (getFileInfo path r).fileInfo = some f ∧ f.isDirectory = false) ∧
    ((getFileInfo path r).success = false →
      fileExists path r =
        { fileIsThere := false, error := (getFileInfo path r).error }) := by
  refine ⟨?_, ?_, ?_⟩
  · intro h404
    have hok := ok_false_of_status_404 h404
    exact ⟨by simp [getFileInfo, hok, h404],
      by simp [fileExists, getFileInfo, hok, h404]⟩
  · cases hok : r.ok with
    | true => simp [fileExists, getFileInfo, hok]
    | false =>
      by_cases h404 : r.status = 404
      · simp [fileExists, getFileInfo, hok, h404]
      · simp [fileExists, getFileInfo, hok, h404]
  · intro hfail
    cases hok : r.ok with
    | true => simp [getFileInfo, hok] at hfail
    | false =>
      by_cases h404 : r.status = 404
      · simp [getFileInfo, hok, h404] at hfail
      · simp [fileExists, getFileInfo, hok, h404]

theorem getFileInfo_fileExists_witness :
    (getFileInfo "a/b.jpg" resp404 =
      { success := true, fileInfo := none, error := none } ∧
      fileExists "a/b.jpg" resp404 = { fileIsThere := false, error := none }) ∧
    fileExists "a/b.jpg" resp500 =
      { fileIsThere := false, error := (getFileInfo "a/b.jpg" resp500).error } :=
  ⟨(getFileInfo_fileExists_spec "a/b.jpg" resp404).1 rfl,
   (getFileInfo_fileExists_spec "a/b.jpg" resp500).2.2 (by decide)⟩

/-- C7: when the source fetch is non-2xx, `uploadFromUrl` fails and never
issues the storage PUT; when it succeeds, it delegates to `uploadBuffer` with
the fetched body and the source's `content-type` header, defaulting it to
`application/octet-stream` when that header is absent (or empty, which JS
`||` also treats as missing), and returns the delegated result. -/
theorem uploadFromUrl_spec (config : BunnyCDNConfig)
    (sourceUrl destinationPath : String) (src upl : HttpResponse) :
    (src.ok = false →
      uploadFromUrlRequests config sourceUrl destinationPath src =
        [sourceFetchRequest sourceUrl] ∧
      (uploadFromUrl config destinationPath src upl).success = false) ∧
    (src.ok = true →
      uploadFromUrlRequests config sourceUrl destinationPath src =
        [sourceFetchRequest sourceUrl,
          uploadBufferRequest config src.bodyBytes destinationPath
            (sourceContentType src)] ∧
      uploadFromUrl config destinationPath src upl =
        { success := (uploadBuffer config destinationPath upl).success
          url := (uploadBuffer config destinationPath upl).url
          error := (uploadBuffer config destinationPath upl).error }) ∧
    (headerGet src.headers "content-type" = none →
      sourceContentType src = "application/octet-stream") ∧
    (∀ ct, headerGet src.headers "content-type" = some ct → ct ≠ "" →
      sourceContentType src = ct) :=
  ⟨fun h => ⟨by simp [uploadFromUrlRequests, h], by simp [uploadFromUrl, h]⟩,
   fun h => ⟨by simp [uploadFromUrlRequests, h], by simp [uploadFromUrl, h]⟩,
   fun h => by simp [sourceContentType, h],
   fun ct h hne => by simp [sourceContentType, h, hne]⟩

theorem uploadFromUrl_spec_witness :
    (uploadFromUrlRequests cleanConfig "https://img.example.com/x.png" "a/x.png"
        resp404 = [sourceFetchRequest "https://img.example.com/x.png"] ∧
      (uploadFromUrl cleanConfig "a/x.png" resp404 resp200).success = false) ∧
    (uploadFromUrlRequests cleanConfig "https://img.example.com/x.png" "a/x.png"
        resp200 =
        [sourceFetchRequest "https://img.example.com/x.png",
          uploadBufferRequest cleanConfig resp200.bodyBytes "a/x.png"
            (sourceContentType resp200)] ∧
      uploadFromUrl cleanConfig "a/x.png" resp200 resp200 =
        { success := (uploadBuffer cleanConfig "a/x.png" resp200).success
          url := (uploadBuffer cleanConfig "a/x.png" resp200).url
          error := (uploadBuffer cleanConfig "a/x.png" resp200).error }) ∧
    sourceContentType resp404 = "application/octet-stream" ∧
    sourceContentType resp200 = "image/png" :=
  ⟨(uploadFromUrl_spec cleanConfig "https://img.example.com/x.png" "a/x.png"
      resp404 resp200).1 (by decide),
   (uploadFromUrl_spec cleanConfig "https://img.example.com/x.png" "a/x.png"
      resp200 resp200).2.1 (by decide),
   (uploadFromUrl_spec cleanConfig "u" "p" resp404 resp404).2.2.1 rfl,
   (uploadFromUrl_spec cleanConfig "u" "p" resp200 resp200).2.2.2 "image/png"
     rfl (by decide)⟩

/-- C8: `uploadBuffer` on a 2xx response succeeds with the public URL
`buildHTTPSUrl pullZoneUrl path` (which always carries the secure scheme),
and on a 500 fails with an error string containing `"500"`. -/
theorem uploadBuffer_spec (config : BunnyCDNConfig) (path : String)
    (r : HttpResponse) :
    (r.ok = true →
      uploadBuffer config path r =
        { success := true, url := some (buildHTTPSUrl config.pullZoneUrl path)
          error := none } ∧
      jsStartsWith (((uploadBuffer config path r).url).getD "") "https://" = true) ∧
    (r.status = 500 →
      (uploadBuffer config path r).success = false ∧
      ("500" : String).data <:+: (((uploadBuffer config path r).error).getD "").data) := by
  constructor
  · intro hok
    refine ⟨by simp [uploadBuffer, hok], ?_⟩
    simp only [uploadBuffer, hok, Bool.not_true, if_neg, Option.getD_some]
    exact buildHTTPSUrl_startsWith_https _ _
  · intro h500
    have hok : r.ok = false := by
      unfold HttpResponse.ok
      rw [h500]
      decide
    refine ⟨by simp [uploadBuffer, hok], ?_⟩
    simp only [uploadBuffer, hok, Bool.not_false, if_pos, Option.getD_some]
    rw [h500]
    exact status_in_error "Upload failed: " 500 r.statusText

theorem uploadBuffer_spec_witness :
    (uploadBuffer cleanConfig "a/x.png" resp200 =
      { success := true
        url := some (buildHTTPSUrl cleanConfig.pullZoneUrl "a/x.png")
        error := none } ∧
      jsStartsWith (((uploadBuffer cleanConfig "a/x.png" resp200).url).getD "")
        "https://" = true) ∧
    ((uploadBuffer cleanConfig "a/x.png" resp500).success = false ∧
      ("500" : String).data <:+:
        (((uploadBuffer cleanConfig "a/x.png" resp500).error).getD "").data) :=
  ⟨(uploadBuffer_spec cleanConfig "a/x.png" resp200).1 (by decide),
   (uploadBuffer_spec cleanConfig "a/x.png" resp500).2 (by decide)⟩

/-- C9: `deleteFileByUrl` derives `basePath ++ "/" ++ lastSegment publicUrl`
and delegates request and result to `deleteFile` on that path — in particular
on `("https://cdn.example.com/dir/name.jpg", "dir")` it issues exactly
`deleteFile`'s request for `"dir/name.jpg"` — and when no last segment can be
extracted it fails without issuing any request. -/
theorem deleteFileByUrl_spec (config : BunnyCDNConfig)
    (publicUrl basePath : String) (r : HttpResponse) :
    (extractedFilename publicUrl ≠ "" →
      deleteFileByUrlRequest config publicUrl basePath =
        some (deleteFileRequest config
          (basePath ++ "/" ++ extractedFilename publicUrl)) ∧
      deleteFileByUrl publicUrl r = deleteFile r) ∧
    deleteFileByUrlRequest config "https://cdn.example.com/dir/name.jpg" "dir" =
      some (deleteFileRequest config "dir/name.jpg") ∧
    (extractedFilename publicUrl = "" →
      deleteFileByUrlRequest config publicUrl basePath = none ∧
      deleteFileByUrl publicUrl r =
        { success := false, error := some "Could not extract filename from URL" }) := by
  refine ⟨?_, ?_, ?_⟩
  · intro h
    exact ⟨by simp [deleteFileByUrlRequest, h], by simp [deleteFileByUrl, h]⟩
  · rfl
  · intro h
    exact ⟨by simp [deleteFileByUrlRequest, h], by simp [deleteFileByUrl, h]⟩

theorem deleteFileByUrl_spec_witness :
    (deleteFileByUrlRequest cleanConfig "https://cdn.example.com/dir/name.jpg"
        "dir" =
      some (deleteFileRequest cleanConfig
        ("dir" ++ "/" ++ extractedFilename "https://cdn.example.com/dir/name.jpg")) ∧
      deleteFileByUrl "https://cdn.example.com/dir/name.jpg" resp200 =
        deleteFile resp200) ∧
    (deleteFileByUrlRequest cleanConfig "" "dir" = none ∧
      deleteFileByUrl "" resp200 =
        { success := false, error := some "Could not extract filename from URL" }) :=
  ⟨(deleteFileByUrl_spec cleanConfig "https://cdn.example.com/dir/name.jpg"
      "dir" resp200).1 (by decide),
   (deleteFileByUrl_spec cleanConfig "" "dir" resp200).2.2 (by decide)⟩

/-- C10: a 2xx response whose parsed JSON body is not an array is mapped by
`listFiles` to a success carrying the empty file list — the same result as
listing an empty directory (a 2xx response with an empty JSON array body). -/
theorem listFiles_nonarray_spec (path : String) (r : HttpResponse)
    (hok : r.ok = true) (hna : r.json.isArr = false) :
    listFiles path r = { success := true, files := some [], error := none } ∧
    listFiles path r = listFiles path { r with json := .arr [] } := by
  have h1 : listFiles path r = { success := true, files := some [], error := none } := by
    cases hj : r.json with
    | arr elems =>
      rw [hj] at hna
      simp [JsVal.isArr] at hna
    | undefined => simp [listFiles, hok, hj]
    | jsNull => simp [listFiles, hok, hj]
    | bool b => simp [listFiles, hok, hj]
    | num n => simp [listFiles, hok, hj]
    | str s => simp [listFiles, hok, hj]
    | obj fields => simp [listFiles, hok, hj]
  refine ⟨h1, ?_⟩
  have hok2 : HttpResponse.ok { r with json := .arr [] } = true := hok
  rw [h1]
  simp [listFiles, hok2]

theorem listFiles_nonarray_witness :
    listFiles "dir" resp200obj =
      { success := true, files := some [], error := none } ∧
    listFiles "dir" resp200obj = listFiles "dir" { resp200obj with json := .arr [] } :=
  listFiles_nonarray_spec "dir" resp200obj (by decide) (by decide)

end BunnyCdn
